import Mathlib

/-!
Verification of the Altcoin-Monitor alert evaluation core.

This file gives a shallow embedding, in Lean, of the alert engine of the
repository: the cooldown tracker, the filter-signature, the monitor
(new-entrant) evaluator, the spike evaluator threshold loop, the alert-rule
POST route, the alert-events GET route and the event repository, and proves
or refutes the specification claims about them.

Modelling conventions:
- machine numbers (`number` in the source) are rationals for volumes,
  ratios and thresholds, integers or naturals for epoch timestamps
  (milliseconds, as produced by `Date.now()`);
- JavaScript `Map` objects are association lists with the `Map.get` and
  `Map.set` semantics (replace when present, append when absent);
- ISO timestamp strings are modelled by their epoch-millisecond value;
- the SHA-256 digest inside `generateFilterSignature` is modelled as the
  identity on the hashed payload string: the claims under verification
  depend only on the signature being a deterministic injective function of
  the four filter fields, which the payload string already is;
- the random suffix of `generateId` is omitted (ids never influence the
  claimed behaviour);
- network access (Binance candles) is abstracted: the spike evaluator is
  embedded from the point where `baselineVol` and `currentVol` are known,
  exactly as in `evaluateSpikeAlerts` after its two fetches.
-/

/-! ## Association-list maps (JavaScript Map semantics) -/

/-- Lookup in an association list; models `Map.get` (first matching key). -/
def alookup {κ α : Type} [DecidableEq κ] (k : κ) : List (κ × α) → Option α
  | [] => none
  | (k2, v) :: rest => if k2 = k then some v else alookup k rest

/-- Update in an association list; models `Map.set`: replaces the first
binding when the key is present, appends otherwise (Map keys are unique, so
under `alookup` this is exactly the JavaScript behaviour). -/
def aset {κ α : Type} [DecidableEq κ] (k : κ) (v : α) : List (κ × α) → List (κ × α)
  | [] => [(k, v)]
  | p :: rest => if p.1 = k then (k, v) :: rest else p :: aset k v rest

/-! ## Data model (lib/types.ts) -/

inductive AlertType
  | MONITOR_NEW
  | SPIKE
deriving DecidableEq

inductive AlertStatus
  | triggered
  | delivered
  | dismissed
  | snoozed
deriving DecidableEq

/-- Filter fields that enter the filter signature (interface FilterSignatureInput). -/
structure FilterSignatureInput where
  min_market_cap : ℚ
  max_market_cap : ℚ
  min_volume_24h : ℚ
  min_vol_mcap_pct : ℚ
deriving DecidableEq

/-- Filter snapshot carried on MONITOR_NEW events (interface MonitorAlertFilters). -/
structure MonitorAlertFilters where
  min_market_cap : ℚ
  max_market_cap : ℚ
  min_volume_24h : ℚ
  min_vol_mcap_pct : ℚ
deriving DecidableEq

/-- User-defined volume-spike rule (interface AlertRule). Timestamps are epoch ms. -/
structure AlertRule where
  id : String
  user_id : String
  symbol : String
  timeframes : List String
  thresholds : List ℚ
  baseline_n : ℚ
  cooldown_seconds : Nat
  enabled : Bool
  created_at : Nat
  updated_at : Nat
deriving DecidableEq

/-- Record of a fired alert (interface AlertEvent). Optional numeric fields are
`Option` values, `null` being `none`; `triggered_at` is epoch ms. -/
structure AlertEvent where
  id : String
  rule_id : Option String
  type : AlertType
  symbol : String
  timeframe : Option String
  threshold : Option ℚ
  ratio : Option ℚ
  current_vol : Option ℚ
  baseline_vol : Option ℚ
  monitor_filters : Option MonitorAlertFilters
  triggered_at : Nat
  delivered_channels : List String
  status : AlertStatus
  user_id : String
deriving DecidableEq

/-- Per-(user, filter-signature) monitor alert configuration
(interface MonitorAlertSettings). -/
structure MonitorAlertSettings where
  id : String
  user_id : String
  filter_signature : String
  enabled : Bool
  cooldown_seconds : Nat
  last_coin_ids : List String
  created_at : Nat
  updated_at : Nat
deriving DecidableEq

/-- Unique id generator of alertEvaluator.ts; the `Math.random` suffix is
omitted, ids never influence the claimed behaviour. -/
def generateId (pfx : String) (now : Nat) : String :=
  pfx ++ "_" ++ toString now

/-- Filter signature (dbRepository.ts / alertStore.ts generateFilterSignature).
The SHA-256 digest is modelled as the identity on the hashed payload, which
keeps the only properties the claims rely on: determinism and injectivity in
the four fields. -/
def generateFilterSignature (filters : FilterSignatureInput) : String :=
  toString filters.min_market_cap ++ "|" ++ toString filters.max_market_cap ++ "|"
    ++ toString filters.min_volume_24h ++ "|" ++ toString filters.min_vol_mcap_pct

/-! ## Cooldown tracking (dbRepository.ts lines 373-409, alertStore.ts lines 123-160) -/

/-- Composite cooldown key. The source uses template-literal strings,
`userId:symbol:filterSig` for entrant alerts and
`spike:ruleId:timeframe:threshold` for spike alerts, in one shared Map; the
templates are injective in their components as used (ids, symbols and
timeframes carry no separator, numbers stringify canonically) and the two
shapes cannot collide with each other, so the keys are modelled by the
structured value they identify. -/
inductive CooldownKey
  | coin (userId symbol filterSig : String)
  | spike (ruleId timeframe : String) (threshold : ℚ)
deriving DecidableEq

/-- Cooldown map: composite key to last-fired epoch ms. -/
abbrev CooldownMap := List (CooldownKey × Nat)

/-- Composite cooldown key for entrant alerts. -/
def coinCooldownKey (userId symbol filterSig : String) : CooldownKey :=
  CooldownKey.coin userId symbol filterSig

/-- Composite cooldown key for spike alerts. -/
def spikeCooldownKey (ruleId timeframe : String) (threshold : ℚ) : CooldownKey :=
  CooldownKey.spike ruleId timeframe threshold

/-- checkAndUpdateCoinCooldown: passes, recording now, iff now minus the last
recorded instant (0 when the key is absent, from the `|| 0` default) is at
least cooldownSeconds seconds. Times in epoch ms. -/
def checkAndUpdateCoinCooldown (userId symbol filterSig : String)
    (cooldownSeconds : Nat) (now : Nat) (m : CooldownMap) : Bool × CooldownMap :=
  let key := coinCooldownKey userId symbol filterSig
  let lastAlerted := (alookup key m).getD 0
  if (now : Int) - (lastAlerted : Int) ≥ (cooldownSeconds : Int) * 1000 then
    (true, aset key now m)
  else
    (false, m)

/-- checkSpikeRuleCooldown: same decision as checkAndUpdateCoinCooldown on the
spike key. -/
def checkSpikeRuleCooldown (ruleId timeframe : String) (threshold : ℚ)
    (cooldownSeconds : Nat) (now : Nat) (m : CooldownMap) : Bool × CooldownMap :=
  let key := spikeCooldownKey ruleId timeframe threshold
  let lastAlerted := (alookup key m).getD 0
  if (now : Int) - (lastAlerted : Int) ≥ (cooldownSeconds : Int) * 1000 then
    (true, aset key now m)
  else
    (false, m)

/-- Gate predicate: the cooldown for `key` is open at `now` in map `m`,
matching the pass condition of the two check functions. -/
def gateOpen (key : CooldownKey) (cooldownSeconds : Nat) (now : Nat) (m : CooldownMap) : Prop :=
  (now : Int) - (((alookup key m).getD 0 : Nat) : Int) ≥ (cooldownSeconds : Int) * 1000

instance (key : CooldownKey) (cd now : Nat) (m : CooldownMap) :
    Decidable (gateOpen key cd now m) := by
  unfold gateOpen
  infer_instance

/-! ## Spike evaluator (alertEvaluator.ts evaluateSpikeAlerts, prismaClient.ts lines 259-356)

The two Binance fetches (getBaselineVolume, getCurrentVolume) are abstracted
into a volume oracle `vols symbol timeframe = (baselineVol, currentVol)`; the
evaluator is embedded from the point where both volumes are known. -/

/-- SPIKE AlertEvent as constructed inside the threshold loop. -/
def mkSpikeEvent (userId ruleId symbol timeframe : String)
    (threshold ratio currentVol baselineVol : ℚ) (now : Nat) : AlertEvent :=
  { id := generateId "ae" now
    rule_id := some ruleId
    type := AlertType.SPIKE
    symbol := symbol
    timeframe := some timeframe
    threshold := some threshold
    ratio := some ratio
    current_vol := some currentVol
    baseline_vol := some baselineVol
    monitor_filters := none
    triggered_at := now
    delivered_channels := []
    status := AlertStatus.triggered
    user_id := userId }

/-- Descending-order relation used by the threshold sort. -/
def descQ (a b : ℚ) : Prop :=
  b ≤ a

instance : DecidableRel descQ := fun a b => inferInstanceAs (Decidable (b ≤ a))

instance : IsTotal ℚ descQ := ⟨fun a b => le_total b a⟩

instance : IsTrans ℚ descQ := ⟨fun _ _ _ h1 h2 => le_trans h2 h1⟩

/-- Descending numeric sort; models `thresholds.sort((a, b) => b - a)` (a
stable sort into descending order). -/
def sortDescQ (l : List ℚ) : List ℚ :=
  l.insertionSort descQ

/-- Threshold loop of evaluateSpikeAlerts over the already-sorted threshold
list: for each threshold, when `ratio >= threshold`, run the cooldown check;
when it passes, emit the SPIKE event and stop (the `break`); when it blocks,
continue with the next (lower) threshold. Returns the emitted events and the
updated cooldown map. -/
def spikeThresholdLoop (userId ruleId symbol timeframe : String) (cooldownSeconds : Nat)
    (ratio currentVol baselineVol : ℚ) (now : Nat) :
    List ℚ → CooldownMap → List AlertEvent × CooldownMap
  | [], m => ([], m)
  | t :: rest, m =>
    if ratio ≥ t then
      let check := checkSpikeRuleCooldown ruleId timeframe t cooldownSeconds now m
      if check.1 then
        ([mkSpikeEvent userId ruleId symbol timeframe t ratio currentVol baselineVol now], check.2)
      else
        spikeThresholdLoop userId ruleId symbol timeframe cooldownSeconds
          ratio currentVol baselineVol now rest check.2
    else
      spikeThresholdLoop userId ruleId symbol timeframe cooldownSeconds
        ratio currentVol baselineVol now rest m

/-- Body of evaluateSpikeAlerts for one (rule, timeframe) pair, given the two
fetched volumes: skip when the baseline is not positive, otherwise compute the
ratio and run the threshold loop on the descending-sorted thresholds. -/
def evaluateSpikeRuleTimeframe (userId : String) (rule : AlertRule) (timeframe : String)
    (baselineVol currentVol : ℚ) (now : Nat) (m : CooldownMap) :
    List AlertEvent × CooldownMap :=
  if baselineVol ≤ 0 then ([], m)
  else
    spikeThresholdLoop userId rule.id rule.symbol timeframe rule.cooldown_seconds
      (currentVol / baselineVol) currentVol baselineVol now (sortDescQ rule.thresholds) m

/-- Timeframe loop of evaluateSpikeAlerts for one rule. -/
def spikeTimeframesLoop (userId : String) (rule : AlertRule)
    (vols : String → String → ℚ × ℚ) (now : Nat) :
    List String → CooldownMap → List AlertEvent × CooldownMap
  | [], m => ([], m)
  | tf :: rest, m =>
    let v := vols rule.symbol tf
    let r := evaluateSpikeRuleTimeframe userId rule tf v.1 v.2 now m
    let rr := spikeTimeframesLoop userId rule vols now rest r.2
    (r.1 ++ rr.1, rr.2)

/-- Rule loop of evaluateSpikeAlerts: disabled rules are skipped. -/
def spikeRulesLoop (userId : String) (vols : String → String → ℚ × ℚ) (now : Nat) :
    List AlertRule → CooldownMap → List AlertEvent × CooldownMap
  | [], m => ([], m)
  | rule :: rest, m =>
    if rule.enabled then
      let r := spikeTimeframesLoop userId rule vols now rule.timeframes m
      let rr := spikeRulesLoop userId vols now rest r.2
      (r.1 ++ rr.1, rr.2)
    else
      spikeRulesLoop userId vols now rest m

/-- evaluateSpikeAlerts: full pass over the user rules; the returned count is
the number of fired events. -/
def evaluateSpikeAlerts (userId : String) (rules : List AlertRule)
    (vols : String → String → ℚ × ℚ) (now : Nat) (m : CooldownMap) :
    Nat × List AlertEvent × CooldownMap :=
  let r := spikeRulesLoop userId vols now rules m
  (r.1.length, r.1, r.2)

/-! ## Monitor (new-entrant) evaluator (alertEvaluator.ts evaluateMonitorAlerts,
prismaClient.ts lines 93-192, backed by the repository of dbRepository.ts) -/

/-- Backing store of the repository: monitor settings and previous-coin state
keyed by (userId, filterSignature), the cooldown map, and the event log. -/
structure AlertDb where
  settings : List ((String × String) × MonitorAlertSettings)
  monitorState : List ((String × String) × List String)
  cooldowns : CooldownMap
  events : List AlertEvent
deriving DecidableEq

/-- getOrCreateMonitorAlertSettings: returns the stored settings, creating the
default record (enabled, 600 s cooldown) when absent. -/
def getOrCreateMonitorAlertSettings (userId filterSig : String) (now : Nat) (db : AlertDb) :
    MonitorAlertSettings × AlertDb :=
  match alookup (userId, filterSig) db.settings with
  | some s => (s, db)
  | none =>
    let s : MonitorAlertSettings :=
      { id := generateId "mas" now
        user_id := userId
        filter_signature := filterSig
        enabled := true
        cooldown_seconds := 600
        last_coin_ids := []
        created_at := now
        updated_at := now }
    (s, { db with settings := aset (userId, filterSig) s db.settings })

/-- getMonitorAlertState: previously stored coin-id snapshot, when any. -/
def getMonitorAlertState (userId filterSig : String) (db : AlertDb) : Option (List String) :=
  alookup (userId, filterSig) db.monitorState

/-- upsertMonitorAlertState: overwrite the stored coin-id snapshot. -/
def upsertMonitorAlertState (userId filterSig : String) (prevCoinIds : List String)
    (db : AlertDb) : AlertDb :=
  { db with monitorState := aset (userId, filterSig) prevCoinIds db.monitorState }

/-- MONITOR_NEW AlertEvent as constructed inside evaluateMonitorAlerts. -/
def mkMonitorNewEvent (userId symbol : String) (filterValues : FilterSignatureInput)
    (now : Nat) : AlertEvent :=
  { id := generateId "ae" now
    rule_id := none
    type := AlertType.MONITOR_NEW
    symbol := symbol
    timeframe := none
    threshold := none
    ratio := none
    current_vol := none
    baseline_vol := none
    monitor_filters := some
      { min_market_cap := filterValues.min_market_cap
        max_market_cap := filterValues.max_market_cap
        min_volume_24h := filterValues.min_volume_24h
        min_vol_mcap_pct := filterValues.min_vol_mcap_pct }
    triggered_at := now
    delivered_channels := []
    status := AlertStatus.triggered
    user_id := userId }

/-- Result of one evaluateMonitorAlerts call: the returned alert count, the
coin ids whose iteration created an event (bookkeeping that mirrors the fire
loop one-to-one), and the updated store. -/
structure MonitorEvalResult where
  count : Nat
  firedCoinIds : List String
  db : AlertDb
deriving DecidableEq

/-- Helper of jsSetOfList accumulating first occurrences. -/
def jsSetAux : List String → List String → List String
  | acc, [] => acc
  | acc, x :: xs => if x ∈ acc then jsSetAux acc xs else jsSetAux (acc ++ [x]) xs

/-- Iteration order of `new Set(list)`: the list with duplicates removed,
keeping first occurrences. -/
def jsSetOfList (l : List String) : List String :=
  jsSetAux [] l

/-- Fire loop of evaluateMonitorAlerts over the new coin ids: skip ids with no
coinData entry, gate each remaining id through checkAndUpdateCoinCooldown, and
on pass append the MONITOR_NEW event and count it. coinData entries are
(coinId, symbol, name). -/
def fireMonitorAlertsLoop (userId filterSig : String) (cooldownSeconds : Nat)
    (filterValues : FilterSignatureInput) (coinData : List (String × String × String))
    (now : Nat) : List String → AlertDb → Nat → List String → MonitorEvalResult
  | [], db, count, fired => ⟨count, fired, db⟩
  | coinId :: rest, db, count, fired =>
    match alookup coinId coinData with
    | none =>
      fireMonitorAlertsLoop userId filterSig cooldownSeconds filterValues coinData now
        rest db count fired
    | some info =>
      let check := checkAndUpdateCoinCooldown userId info.1 filterSig cooldownSeconds now
        db.cooldowns
      if check.1 then
        fireMonitorAlertsLoop userId filterSig cooldownSeconds filterValues coinData now
          rest
          { db with
              cooldowns := check.2
              events := db.events ++ [mkMonitorNewEvent userId info.1 filterValues now] }
          (count + 1) (fired ++ [coinId])
      else
        fireMonitorAlertsLoop userId filterSig cooldownSeconds filterValues coinData now
          rest { db with cooldowns := check.2 } count fired

/-- evaluateMonitorAlerts: detect coins newly entering the filtered list for
(userId, filter signature), then fire cooldown-gated MONITOR_NEW alerts.
Mirrors the source line by line: settings are fetched or created; a disabled
setting returns 0 immediately; the new-coin diff is taken against the stored
snapshot; the snapshot is then overwritten with the current list; finally the
fire loop runs over the new ids. -/
def evaluateMonitorAlerts (userId : String) (currentFilteredCoinIds : List String)
    (filterValues : FilterSignatureInput) (coinData : List (String × String × String))
    (now : Nat) (db : AlertDb) : MonitorEvalResult :=
  let filterSig := generateFilterSignature filterValues
  let gc := getOrCreateMonitorAlertSettings userId filterSig now db
  if !gc.1.enabled then ⟨0, [], gc.2⟩
  else
    let previousCoinIds := (getMonitorAlertState userId filterSig gc.2).getD []
    let currentCoinIds := jsSetOfList currentFilteredCoinIds
    let newCoinIds := currentCoinIds.filter (fun id => !(previousCoinIds.contains id))
    let db2 := upsertMonitorAlertState userId filterSig currentFilteredCoinIds gc.2
    fireMonitorAlertsLoop userId filterSig gc.1.cooldown_seconds filterValues coinData now
      newCoinIds db2 0 []

/-- Input of one scheduled evaluateMonitorAlerts invocation. -/
structure EvalInput where
  coinIds : List String
  coinData : List (String × String × String)
  now : Nat

/-- Run a sequence of evaluateMonitorAlerts invocations for one user and one
filter set, collecting each invocation's fired coin ids. -/
def runMonitorEvals (userId : String) (filterValues : FilterSignatureInput) :
    List EvalInput → AlertDb → List (List String) × AlertDb
  | [], db => ([], db)
  | e :: rest, db =>
    let r := evaluateMonitorAlerts userId e.coinIds filterValues e.coinData e.now db
    let rr := runMonitorEvals userId filterValues rest r.db
    (r.firedCoinIds :: rr.1, rr.2)

/-! ## Alert rules POST route (app/api/alerts/rules/route.ts POST) -/

/-- Parsed JSON body of POST /api/alerts/rules; absent fields are `none`. -/
structure RulePostBody where
  symbol : Option String
  timeframes : Option (List String)
  thresholds : Option (List ℚ)
  baseline_n : Option ℚ
  cooldown_seconds : Option Nat
deriving DecidableEq

/-- Outcome of the POST handler: the 400 validation response or the 201
response carrying the created rule. -/
inductive RulePostResult
  | badRequest
  | created (rule : AlertRule)
deriving DecidableEq

/-- JavaScript truthiness test of an optional string: absent and empty are
falsy. -/
def jsFalsyStr : Option String → Bool
  | none => true
  | some s => s = ""

/-- String.prototype.toUpperCase, character-wise. -/
def jsToUpperCase (s : String) : String :=
  String.mk (s.data.map Char.toUpper)

/-- JavaScript `x || d` over an optional rational: absent and 0 give the
default. -/
def jsOrDefaultQ (x : Option ℚ) (d : ℚ) : ℚ :=
  match x with
  | none => d
  | some v => if v = 0 then d else v

/-- JavaScript `x || d` over an optional natural: absent and 0 give the
default. -/
def jsOrDefaultNat (x : Option Nat) (d : Nat) : Nat :=
  match x with
  | none => d
  | some v => if v = 0 then d else v

/-- POST /api/alerts/rules: reject with 400 when `!symbol || !timeframes ||
!thresholds` (JavaScript truthiness, so an empty array passes); otherwise
build the rule with defaulted baseline and cooldown, enabled, uppercased
symbol, and persist it via createAlertRule. -/
def postAlertRules (userId : String) (body : RulePostBody) (now : Nat) (ruleId : String)
    (store : List AlertRule) : RulePostResult × List AlertRule :=
  if jsFalsyStr body.symbol || body.timeframes.isNone || body.thresholds.isNone then
    (RulePostResult.badRequest, store)
  else
    let rule : AlertRule :=
      { id := ruleId
        user_id := userId
        symbol := jsToUpperCase (body.symbol.getD "")
        timeframes := body.timeframes.getD []
        thresholds := body.thresholds.getD []
        baseline_n := jsOrDefaultQ body.baseline_n 20
        cooldown_seconds := jsOrDefaultNat body.cooldown_seconds 300
        enabled := true
        created_at := now
        updated_at := now }
    (RulePostResult.created rule, store ++ [rule])

/-! ## Event repository (dbRepository.ts createAlertEvent, lines 144-183) -/

/-- JavaScript `x || null` over an optional rational: 0 becomes null. -/
def jsOrNullQ : Option ℚ → Option ℚ
  | none => none
  | some x => if x = 0 then none else some x

/-- JavaScript `x || null` over an optional string: the empty string becomes
null. -/
def jsOrNullStr : Option String → Option String
  | none => none
  | some s => if s = "" then none else some s

/-- createAlertEvent of the database repository: the row is written with the
`|| null` defaults applied to ruleId, timeframe and the numeric fields, and
the function returns the row as stored. -/
def createAlertEvent (event : AlertEvent) (store : List AlertEvent) :
    AlertEvent × List AlertEvent :=
  let stored : AlertEvent :=
    { event with
        rule_id := jsOrNullStr event.rule_id
        timeframe := jsOrNullStr event.timeframe
        threshold := jsOrNullQ event.threshold
        ratio := jsOrNullQ event.ratio
        current_vol := jsOrNullQ event.current_vol
        baseline_vol := jsOrNullQ event.baseline_vol }
  (stored, store ++ [stored])

/-! ## Event listing (alertStore.ts getUserAlertEvents, events GET route) -/

/-- Newest-first order on events. -/
def newerFirst (a b : AlertEvent) : Prop :=
  b.triggered_at ≤ a.triggered_at

instance : DecidableRel newerFirst :=
  fun a b => inferInstanceAs (Decidable (b.triggered_at ≤ a.triggered_at))

instance : IsTotal AlertEvent newerFirst := ⟨fun a b => Nat.le_total b.triggered_at a.triggered_at⟩

instance : IsTrans AlertEvent newerFirst := ⟨fun _ _ _ h1 h2 => le_trans h2 h1⟩

/-- Sort by triggered_at descending; models the comparator
`(a, b) => b.triggered_at - a.triggered_at` (a stable sort, newest first). -/
def sortByTriggeredDesc (l : List AlertEvent) : List AlertEvent :=
  l.insertionSort newerFirst

/-- getUserAlertEvents: the stored events of the user, newest first, cut to
`limit`. -/
def getUserAlertEvents (events : List AlertEvent) (userId : String) (limit : Nat) :
    List AlertEvent :=
  (sortByTriggeredDesc (events.filter (fun e => e.user_id == userId))).take limit

/-- GET /api/alerts/events: the route caps the requested limit at 500 before
delegating to getUserAlertEvents. -/
def routeAlertEventsGET (events : List AlertEvent) (userId : String) (limit : Nat) :
    List AlertEvent :=
  getUserAlertEvents events userId (min limit 500)

/-! ## Concrete fixtures used by witnesses and counterexamples -/

/-- Empty backing store. -/
def emptyAlertDb : AlertDb :=
  ⟨[], [], [], []⟩

/-- Filter set of the source test harness (testNewCoinDetection). -/
def testFilters : FilterSignatureInput :=
  ⟨100000000, 1000000000, 50000000, 2⟩

/-- Coin lookup data of the source test harness. -/
def testCoinData : List (String × String × String) :=
  [("bitcoin", "BTC", "Bitcoin"), ("ethereum", "ETH", "Ethereum"), ("solana", "SOL", "Solana")]

/-- Spike rule with thresholds {2, 3} as in the source test harness. -/
def ruleTwoThree : AlertRule :=
  { id := "r1"
    user_id := "u"
    symbol := "BTC"
    timeframes := ["1h"]
    thresholds := [2, 3]
    baseline_n := 20
    cooldown_seconds := 300
    enabled := true
    created_at := 0
    updated_at := 0 }

/-- Monitor settings record with alerts disabled. -/
def disabledSettings : MonitorAlertSettings :=
  { id := "mas_1"
    user_id := "u"
    filter_signature := generateFilterSignature testFilters
    enabled := false
    cooldown_seconds := 600
    last_coin_ids := []
    created_at := 0
    updated_at := 0 }

/-- Store holding the disabled settings and an empty stored snapshot for the
test filter signature. -/
def disabledDb : AlertDb :=
  ⟨[(("u", generateFilterSignature testFilters), disabledSettings)],
   [(("u", generateFilterSignature testFilters), [])], [], []⟩

/-- Monitor settings record with alerts enabled. -/
def enabledSettings : MonitorAlertSettings :=
  { id := "mas_2"
    user_id := "u"
    filter_signature := generateFilterSignature testFilters
    enabled := true
    cooldown_seconds := 600
    last_coin_ids := []
    created_at := 0
    updated_at := 0 }

/-- Store holding the enabled settings and no stored snapshot yet. -/
def enabledDb : AlertDb :=
  ⟨[(("u", generateFilterSignature testFilters), enabledSettings)], [], [], []⟩

/-- Event with zero-valued threshold and current volume and an empty rule id,
exercising the repository defaults. -/
def zeroFieldEvent : AlertEvent :=
  { id := "ae_1"
    rule_id := some ""
    type := AlertType.SPIKE
    symbol := "BTC"
    timeframe := some "1h"
    threshold := some 0
    ratio := some 2
    current_vol := some 0
    baseline_vol := some 5
    monitor_filters := none
    triggered_at := 0
    delivered_channels := []
    status := AlertStatus.triggered
    user_id := "u" }

/-! # Theorems -/

/-! ## Association-map lemmas -/

theorem alookup_aset_self {κ α : Type} [DecidableEq κ] (k : κ) (v : α) (m : List (κ × α)) :
    alookup k (aset k v m) = some v := by
  induction m with
  | nil => simp [alookup, aset]
  | cons p rest ih =>
    by_cases hk : p.1 = k
    · simp [alookup, aset, hk]
    · simp [alookup, aset, hk, ih]

theorem alookup_aset_ne {κ α : Type} [DecidableEq κ] (k k2 : κ) (v : α) (m : List (κ × α))
    (hne : k2 ≠ k) : alookup k2 (aset k v m) = alookup k2 m := by
  have hkk : ¬ k = k2 := fun hc => hne hc.symm
  induction m with
  | nil => simp [alookup, aset, hkk]
  | cons p rest ih =>
    by_cases hk : p.1 = k
    · have hpk : ¬ p.1 = k2 := fun hc => hne (hc.symm.trans hk)
      simp [alookup, aset, hk, hpk, hkk]
    · simp only [aset, if_neg hk]
      by_cases hpk : p.1 = k2
      · simp [alookup, hpk]
      · simp [alookup, hpk, ih]

/-! ## Cooldown lemmas -/

theorem checkAndUpdateCoinCooldown_eq (userId symbol filterSig : String)
    (cd now : Nat) (m : CooldownMap) :
    checkAndUpdateCoinCooldown userId symbol filterSig cd now m =
      if gateOpen (coinCooldownKey userId symbol filterSig) cd now m then
        (true, aset (coinCooldownKey userId symbol filterSig) now m)
      else (false, m) := by
  simp only [checkAndUpdateCoinCooldown, gateOpen]

theorem checkSpikeRuleCooldown_eq (ruleId timeframe : String) (t : ℚ)
    (cd now : Nat) (m : CooldownMap) :
    checkSpikeRuleCooldown ruleId timeframe t cd now m =
      if gateOpen (spikeCooldownKey ruleId timeframe t) cd now m then
        (true, aset (spikeCooldownKey ruleId timeframe t) now m)
      else (false, m) := by
  simp only [checkSpikeRuleCooldown, gateOpen]

/-! ## Claim C1: cooldown check semantics -/

/-- Claim C1 as stated is false: for a key with no record, the source takes
`lastAlerted = 0` (the `|| 0` default), so a fresh key with `now` smaller than
the cooldown window is rejected even though no record exists. Concretely, with
a 1-second cooldown and `now` = 500 ms, the map holds no record for the key
yet the check returns false, where the claim requires true. -/
theorem c1_counterexample :
    alookup (coinCooldownKey "u" "BTC" "sig") ([] : CooldownMap) = none ∧
    (checkAndUpdateCoinCooldown "u" "BTC" "sig" 1 500 []).1 = false := by
  decide

/-- Claim C1 (amended): the check returns true and records `now` iff `now`
minus the recorded instant is at least `N` seconds, where a missing record
counts as instant 0; otherwise it returns false and leaves the map unchanged.
Consequently, for a fresh key whose first call happens at `t0 ≥ N` seconds
after the epoch: the call at `t0` returns true, the call at `t0 + N − 1`
seconds returns false, and the call at `t0 + N` seconds returns true. Times
are epoch milliseconds. -/
theorem c1_cooldown_amended (u s f : String) (N t0 : Nat) (m : CooldownMap)
    (hfresh : alookup (coinCooldownKey u s f) m = none)
    (hstart : N * 1000 ≤ t0) (hpos : 0 < N) :
    (∀ (now : Nat) (m2 : CooldownMap),
      checkAndUpdateCoinCooldown u s f N now m2 =
        if (now : Int) - (((alookup (coinCooldownKey u s f) m2).getD 0 : Nat) : Int)
            ≥ (N : Int) * 1000 then
          (true, aset (coinCooldownKey u s f) now m2)
        else (false, m2)) ∧
    (checkAndUpdateCoinCooldown u s f N t0 m).1 = true ∧
    (checkAndUpdateCoinCooldown u s f N (t0 + (N - 1) * 1000)
      (checkAndUpdateCoinCooldown u s f N t0 m).2).1 = false ∧
    (checkAndUpdateCoinCooldown u s f N (t0 + N * 1000)
      (checkAndUpdateCoinCooldown u s f N (t0 + (N - 1) * 1000)
        (checkAndUpdateCoinCooldown u s f N t0 m).2).2).1 = true := by
  have hgen : ∀ (now : Nat) (m2 : CooldownMap),
      checkAndUpdateCoinCooldown u s f N now m2 =
        if (now : Int) - (((alookup (coinCooldownKey u s f) m2).getD 0 : Nat) : Int)
            ≥ (N : Int) * 1000 then
          (true, aset (coinCooldownKey u s f) now m2)
        else (false, m2) := by
    intro now m2
    simp only [checkAndUpdateCoinCooldown]
  have h1 : checkAndUpdateCoinCooldown u s f N t0 m =
      (true, aset (coinCooldownKey u s f) t0 m) := by
    rw [hgen, hfresh, if_pos]
    simp only [Option.getD_none, Nat.cast_zero, sub_zero, ge_iff_le]
    exact_mod_cast hstart
  have hlook : alookup (coinCooldownKey u s f)
      (checkAndUpdateCoinCooldown u s f N t0 m).2 = some t0 := by
    rw [h1]
    exact alookup_aset_self _ _ _
  have h2 : checkAndUpdateCoinCooldown u s f N (t0 + (N - 1) * 1000)
      (checkAndUpdateCoinCooldown u s f N t0 m).2 =
      (false, (checkAndUpdateCoinCooldown u s f N t0 m).2) := by
    rw [hgen, hlook, if_neg]
    simp only [Option.getD_some, ge_iff_le, not_le]
    push_cast
    omega
  refine ⟨hgen, by rw [h1], by rw [h2], ?_⟩
  rw [h2]
  rw [hgen, hlook, if_pos]
  simp only [Option.getD_some, ge_iff_le]
  push_cast
  omega

/-- Witness for c1_cooldown_amended at key ("u", "BTC", "sig"), cooldown 1 s,
first call at 2000 ms, on the empty map. -/
theorem c1_cooldown_amended_witness :
    (checkAndUpdateCoinCooldown "u" "BTC" "sig" 1 2000 []).1 = true ∧
    (checkAndUpdateCoinCooldown "u" "BTC" "sig" 1 (2000 + (1 - 1) * 1000)
      (checkAndUpdateCoinCooldown "u" "BTC" "sig" 1 2000 []).2).1 = false ∧
    (checkAndUpdateCoinCooldown "u" "BTC" "sig" 1 (2000 + 1 * 1000)
      (checkAndUpdateCoinCooldown "u" "BTC" "sig" 1 (2000 + (1 - 1) * 1000)
        (checkAndUpdateCoinCooldown "u" "BTC" "sig" 1 2000 []).2).2).1 = true := by
  have h := c1_cooldown_amended "u" "BTC" "sig" 1 2000 [] (by decide) (by decide) (by decide)
  exact ⟨h.2.1, h.2.2.1, h.2.2.2⟩

/-! ## Spike threshold-loop lemmas -/

/-- Characterization of the threshold loop on an arbitrary cooldown state: it
fires exactly at the first listed threshold that qualifies (ratio at least the
threshold) and whose gate is open, recording the fire; failed cooldown checks
leave the state untouched, so the loop falls through to later thresholds. -/
theorem spikeThresholdLoop_eq_find (userId ruleId symbol timeframe : String)
    (cd : Nat) (ratio currentVol baselineVol : ℚ) (now : Nat)
    (ts : List ℚ) (m : CooldownMap) :
    spikeThresholdLoop userId ruleId symbol timeframe cd ratio currentVol baselineVol now ts m =
      match ts.find? (fun t => decide (ratio ≥ t) &&
          decide (gateOpen (spikeCooldownKey ruleId timeframe t) cd now m)) with
      | some t => ([mkSpikeEvent userId ruleId symbol timeframe t ratio currentVol baselineVol now],
          aset (spikeCooldownKey ruleId timeframe t) now m)
      | none => ([], m) := by
  induction ts with
  | nil => simp [spikeThresholdLoop]
  | cons t rest ih =>
    by_cases hr : ratio ≥ t
    · by_cases hg : gateOpen (spikeCooldownKey ruleId timeframe t) cd now m
      · have hfind : List.find? (fun t => decide (ratio ≥ t) &&
            decide (gateOpen (spikeCooldownKey ruleId timeframe t) cd now m)) (t :: rest) =
            some t := by
          apply List.find?_cons_of_pos
          simp [hr, hg]
        rw [hfind]
        simp [spikeThresholdLoop, hr, checkSpikeRuleCooldown_eq, hg]
      · have hfind : List.find? (fun t => decide (ratio ≥ t) &&
            decide (gateOpen (spikeCooldownKey ruleId timeframe t) cd now m)) (t :: rest) =
            List.find? (fun t => decide (ratio ≥ t) &&
              decide (gateOpen (spikeCooldownKey ruleId timeframe t) cd now m)) rest := by
          apply List.find?_cons_of_neg
          simp [hg]
        rw [hfind, ← ih]
        simp [spikeThresholdLoop, hr, checkSpikeRuleCooldown_eq, hg]
    · have hfind : List.find? (fun t => decide (ratio ≥ t) &&
          decide (gateOpen (spikeCooldownKey ruleId timeframe t) cd now m)) (t :: rest) =
          List.find? (fun t => decide (ratio ≥ t) &&
            decide (gateOpen (spikeCooldownKey ruleId timeframe t) cd now m)) rest := by
        apply List.find?_cons_of_neg
        simp [hr]
      rw [hfind, ← ih]
      simp [spikeThresholdLoop, hr]

/-- In a descending-sorted list, the first element satisfying a predicate is
the greatest element satisfying it. -/
theorem find?_sorted_desc_max {l : List ℚ} {p : ℚ → Bool} {t : ℚ}
    (hs : List.Sorted (fun a b : ℚ => b ≤ a) l) (h : l.find? p = some t) :
    ∀ x ∈ l, p x = true → x ≤ t := by
  induction l with
  | nil => simp at h
  | cons a rest ih =>
    rw [List.sorted_cons] at hs
    intro x hx hpx
    rw [List.mem_cons] at hx
    by_cases hpa : p a = true
    · rw [List.find?_cons_of_pos _ hpa] at h
      have ha : a = t := by injection h
      rcases hx with rfl | hx
      · exact ha.le
      · exact le_trans (hs.1 x hx) ha.le
    · rw [List.find?_cons_of_neg _ (by simpa using hpa)] at h
      rcases hx with rfl | hx
      · exact absurd hpx hpa
      · exact ih hs.2 h x hx hpx

theorem sortDescQ_sorted (l : List ℚ) : List.Sorted (fun a b : ℚ => b ≤ a) (sortDescQ l) :=
  List.sorted_insertionSort descQ l

theorem sortDescQ_perm (l : List ℚ) : (sortDescQ l).Perm l :=
  List.perm_insertionSort descQ l

/-! ## Claim C2: threshold tie-break with open gates -/

/-- Claim C2: thresholds are evaluated in descending numeric order (the loop
runs on a descending-sorted permutation of the rule thresholds), at most one
SPIKE event is emitted per (rule, timeframe) pass, and — with the cooldown
gates open, as in the claim scenario — when some threshold qualifies the pass
emits exactly one SPIKE event carrying the highest threshold t with
ratio >= t, and none when no threshold qualifies. The blocked-gate path is the
subject of claim C3. -/
theorem c2_spike_tiebreak (userId : String) (rule : AlertRule) (timeframe : String)
    (baselineVol currentVol : ℚ) (now : Nat) (m : CooldownMap)
    (hbv : 0 < baselineVol)
    (hgate : ∀ t ∈ rule.thresholds,
      gateOpen (spikeCooldownKey rule.id timeframe t) rule.cooldown_seconds now m) :
    List.Sorted (fun a b : ℚ => b ≤ a) (sortDescQ rule.thresholds) ∧
    (sortDescQ rule.thresholds).Perm rule.thresholds ∧
    (evaluateSpikeRuleTimeframe userId rule timeframe baselineVol currentVol now m).1.length ≤ 1 ∧
    ((∀ t ∈ rule.thresholds, ¬ currentVol / baselineVol ≥ t) →
      (evaluateSpikeRuleTimeframe userId rule timeframe baselineVol currentVol now m).1 = []) ∧
    (∀ t ∈ rule.thresholds, currentVol / baselineVol ≥ t →
      ∃ tmax ∈ rule.thresholds, currentVol / baselineVol ≥ tmax ∧
        (∀ t2 ∈ rule.thresholds, currentVol / baselineVol ≥ t2 → t2 ≤ tmax) ∧
        (evaluateSpikeRuleTimeframe userId rule timeframe baselineVol currentVol now m).1 =
          [mkSpikeEvent userId rule.id rule.symbol timeframe tmax
            (currentVol / baselineVol) currentVol baselineVol now]) := by
  have hnle : ¬ baselineVol ≤ 0 := not_le.mpr hbv
  have hperm := sortDescQ_perm rule.thresholds
  have hsorted := sortDescQ_sorted rule.thresholds
  have heq := spikeThresholdLoop_eq_find userId rule.id rule.symbol timeframe
    rule.cooldown_seconds (currentVol / baselineVol) currentVol baselineVol now
    (sortDescQ rule.thresholds) m
  have hbody : evaluateSpikeRuleTimeframe userId rule timeframe baselineVol currentVol now m =
      spikeThresholdLoop userId rule.id rule.symbol timeframe rule.cooldown_seconds
        (currentVol / baselineVol) currentVol baselineVol now (sortDescQ rule.thresholds) m := by
    simp only [evaluateSpikeRuleTimeframe, if_neg hnle]
  refine ⟨hsorted, hperm, ?_, ?_, ?_⟩
  · rw [hbody, heq]
    cases hfind : (sortDescQ rule.thresholds).find? (fun t =>
        decide (currentVol / baselineVol ≥ t) &&
        decide (gateOpen (spikeCooldownKey rule.id timeframe t) rule.cooldown_seconds now m)) with
    | none => simp [hfind]
    | some t => simp [hfind]
  · intro hnone
    rw [hbody, heq]
    have hfind : (sortDescQ rule.thresholds).find? (fun t =>
        decide (currentVol / baselineVol ≥ t) &&
        decide (gateOpen (spikeCooldownKey rule.id timeframe t) rule.cooldown_seconds now m)) =
        none := by
      apply List.find?_eq_none.mpr
      intro x hx
      have hxm : x ∈ rule.thresholds := hperm.mem_iff.mp hx
      simp [hnone x hxm]
    simp [hfind]
  · intro t ht hqt
    cases hfind : (sortDescQ rule.thresholds).find? (fun t =>
        decide (currentVol / baselineVol ≥ t) &&
        decide (gateOpen (spikeCooldownKey rule.id timeframe t) rule.cooldown_seconds now m)) with
    | none =>
      exfalso
      have := List.find?_eq_none.mp hfind t (hperm.mem_iff.mpr ht)
      simp [hqt, hgate t ht] at this
    | some tmax =>
      have hmem : tmax ∈ rule.thresholds :=
        hperm.mem_iff.mp (List.mem_of_find?_eq_some hfind)
      have hp := List.find?_some hfind
      have hqmax : currentVol / baselineVol ≥ tmax := by
        by_contra hc
        simp [hc] at hp
      refine ⟨tmax, hmem, hqmax, ?_, ?_⟩
      · intro t2 ht2 hq2
        exact find?_sorted_desc_max hsorted hfind t2 (hperm.mem_iff.mpr ht2)
          (by simp [hq2, hgate t2 ht2])
      · rw [hbody, heq, hfind]

/-- Witness for c2_spike_tiebreak: rule with thresholds {2, 3}, baseline
volume 1, current volume 7/2 (ratio 3.5), empty cooldown map at t = 1e6 ms;
both gates are open, exactly one SPIKE event fires and it carries
threshold 3, none carries 2. -/
theorem c2_spike_tiebreak_witness :
    (0 : ℚ) < 1 ∧
    (∀ t ∈ ruleTwoThree.thresholds,
      gateOpen (spikeCooldownKey ruleTwoThree.id "1h" t) ruleTwoThree.cooldown_seconds
        1000000 []) ∧
    (evaluateSpikeRuleTimeframe "u" ruleTwoThree "1h" 1 (7/2) 1000000 []).1.length ≤ 1 ∧
    (evaluateSpikeRuleTimeframe "u" ruleTwoThree "1h" 1 (7/2) 1000000 []).1.map
      (fun e => e.threshold) = [some 3] := by
  refine ⟨by norm_num, by decide, ?_, ?_⟩
  · exact (c2_spike_tiebreak "u" ruleTwoThree "1h" 1 (7/2) 1000000 []
      (by norm_num) (by decide)).2.2.1
  · norm_num [evaluateSpikeRuleTimeframe, spikeThresholdLoop, sortDescQ, List.insertionSort,
      List.orderedInsert, ruleTwoThree, checkSpikeRuleCooldown, spikeCooldownKey, alookup,
      mkSpikeEvent, descQ]

/-! ## Claim C3: behaviour when the highest qualifying threshold is blocked -/

/-- Claim C3 as stated is false: with thresholds {2, 3}, ratio 3.5, and a
cooldown state in which the (rule, timeframe, 3) gate has just fired (so its
check returns false) while the (rule, timeframe, 2) gate is open, the source
does not stop: the loop falls through and emits a SPIKE event with
threshold 2, where the claim requires that no lower threshold is attempted and
no event is emitted. -/
theorem c3_counterexample :
    (checkSpikeRuleCooldown "r1" "1h" 3 300 1000000
      [(spikeCooldownKey "r1" "1h" 3, 1000000)]).1 = false ∧
    (evaluateSpikeRuleTimeframe "u" ruleTwoThree "1h" 1 (7/2) 1000000
      [(spikeCooldownKey "r1" "1h" 3, 1000000)]).1.map (fun e => e.threshold) = [some 2] := by
  constructor
  · decide
  · norm_num [evaluateSpikeRuleTimeframe, spikeThresholdLoop, sortDescQ, List.insertionSort,
      List.orderedInsert, ruleTwoThree, checkSpikeRuleCooldown, spikeCooldownKey, alookup,
      mkSpikeEvent, descQ]

/-- Claim C3 (amended): when the cooldown blocks the highest qualifying
threshold, the loop does not stop: a blocked check leaves the cooldown state
untouched and evaluation falls through to the lower thresholds, so the pass
fires at the first threshold, in descending order, that both qualifies and has
an open gate — or not at all — and at most one SPIKE event is emitted per
(rule, timeframe) pass. -/
theorem c3_spike_fallthrough_amended (userId : String) (rule : AlertRule) (timeframe : String)
    (baselineVol currentVol : ℚ) (now : Nat) (m : CooldownMap)
    (hbv : 0 < baselineVol) :
    (evaluateSpikeRuleTimeframe userId rule timeframe baselineVol currentVol now m).1.length ≤ 1 ∧
    (evaluateSpikeRuleTimeframe userId rule timeframe baselineVol currentVol now m).1 =
      (match (sortDescQ rule.thresholds).find? (fun t =>
          decide (currentVol / baselineVol ≥ t) &&
          decide (gateOpen (spikeCooldownKey rule.id timeframe t) rule.cooldown_seconds now m))
        with
      | some t => [mkSpikeEvent userId rule.id rule.symbol timeframe t
          (currentVol / baselineVol) currentVol baselineVol now]
      | none => []) := by
  have hnle : ¬ baselineVol ≤ 0 := not_le.mpr hbv
  have heq := spikeThresholdLoop_eq_find userId rule.id rule.symbol timeframe
    rule.cooldown_seconds (currentVol / baselineVol) currentVol baselineVol now
    (sortDescQ rule.thresholds) m
  have hbody : evaluateSpikeRuleTimeframe userId rule timeframe baselineVol currentVol now m =
      spikeThresholdLoop userId rule.id rule.symbol timeframe rule.cooldown_seconds
        (currentVol / baselineVol) currentVol baselineVol now (sortDescQ rule.thresholds) m := by
    simp only [evaluateSpikeRuleTimeframe, if_neg hnle]
  cases hfind : (sortDescQ rule.thresholds).find? (fun t =>
      decide (currentVol / baselineVol ≥ t) &&
      decide (gateOpen (spikeCooldownKey rule.id timeframe t) rule.cooldown_seconds now m)) with
  | none => exact ⟨by rw [hbody, heq]; simp [hfind], by rw [hbody, heq]; simp [hfind]⟩
  | some t => exact ⟨by rw [hbody, heq]; simp [hfind], by rw [hbody, heq]; simp [hfind]⟩

/-- Witness for c3_spike_fallthrough_amended at the counterexample input. -/
theorem c3_spike_fallthrough_amended_witness :
    (0 : ℚ) < 1 ∧
    (evaluateSpikeRuleTimeframe "u" ruleTwoThree "1h" 1 (7/2) 1000000
      [(spikeCooldownKey "r1" "1h" 3, 1000000)]).1.length ≤ 1 :=
  ⟨by norm_num, (c3_spike_fallthrough_amended "u" ruleTwoThree "1h" 1 (7/2) 1000000
    [(spikeCooldownKey "r1" "1h" 3, 1000000)] (by norm_num)).1⟩

/-! ## Monitor evaluator lemmas -/

theorem getOrCreate_lookup (userId sig : String) (now : Nat) (db : AlertDb) :
    alookup (userId, sig) (getOrCreateMonitorAlertSettings userId sig now db).2.settings =
      some (getOrCreateMonitorAlertSettings userId sig now db).1 := by
  cases hset : alookup (userId, sig) db.settings with
  | some s => simp [getOrCreateMonitorAlertSettings, hset]
  | none => simp [getOrCreateMonitorAlertSettings, hset, alookup_aset_self]

theorem getOrCreate_frame (userId sig : String) (now : Nat) (db : AlertDb) :
    (getOrCreateMonitorAlertSettings userId sig now db).2.monitorState = db.monitorState ∧
    (getOrCreateMonitorAlertSettings userId sig now db).2.cooldowns = db.cooldowns ∧
    (getOrCreateMonitorAlertSettings userId sig now db).2.events = db.events := by
  cases hset : alookup (userId, sig) db.settings with
  | some s => simp [getOrCreateMonitorAlertSettings, hset]
  | none => simp [getOrCreateMonitorAlertSettings, hset]

theorem fireLoop_frame (userId filterSig : String) (cd : Nat) (fv : FilterSignatureInput)
    (coinData : List (String × String × String)) (now : Nat) (l : List String) :
    ∀ (db : AlertDb) (count : Nat) (fired : List String),
      (fireMonitorAlertsLoop userId filterSig cd fv coinData now l db count fired).db.settings
        = db.settings ∧
      (fireMonitorAlertsLoop userId filterSig cd fv coinData now l db count fired).db.monitorState
        = db.monitorState := by
  induction l with
  | nil => intro db count fired; exact ⟨rfl, rfl⟩
  | cons c rest ih =>
    intro db count fired
    simp only [fireMonitorAlertsLoop]
    cases halo : alookup c coinData with
    | none => exact ih db count fired
    | some info =>
      by_cases hchk :
        (checkAndUpdateCoinCooldown userId info.1 filterSig cd now db.cooldowns).1 = true
      · simp only [hchk, if_true]
        exact ih _ _ _
      · simp only [hchk, if_false]
        exact ih _ _ _

theorem fireLoop_not_fired_of_lookup_none (userId filterSig : String) (cd : Nat)
    (fv : FilterSignatureInput) (coinData : List (String × String × String)) (now : Nat)
    (x : String) (hlk : alookup x coinData = none) (l : List String) :
    ∀ (db : AlertDb) (count : Nat) (fired : List String), x ∉ fired →
      x ∉ (fireMonitorAlertsLoop userId filterSig cd fv coinData now l db count fired).firedCoinIds := by
  induction l with
  | nil => intro db count fired hf; exact hf
  | cons c rest ih =>
    intro db count fired hf
    simp only [fireMonitorAlertsLoop]
    by_cases hc : c = x
    · subst hc
      rw [hlk]
      exact ih db count fired hf
    · cases halo : alookup c coinData with
      | none => exact ih db count fired hf
      | some info =>
        by_cases hchk :
          (checkAndUpdateCoinCooldown userId info.1 filterSig cd now db.cooldowns).1 = true
        · simp only [hchk, if_true]
          apply ih
          have hxc : ¬ x = c := fun hx => hc hx.symm
          simp [hf, hxc]
        · simp only [hchk, if_false]
          exact ih _ _ _ hf

theorem fireLoop_not_fired_of_not_mem (userId filterSig : String) (cd : Nat)
    (fv : FilterSignatureInput) (coinData : List (String × String × String)) (now : Nat)
    (x : String) (l : List String) :
    ∀ (db : AlertDb) (count : Nat) (fired : List String), x ∉ fired → x ∉ l →
      x ∉ (fireMonitorAlertsLoop userId filterSig cd fv coinData now l db count fired).firedCoinIds := by
  induction l with
  | nil => intro db count fired hf _; exact hf
  | cons c rest ih =>
    intro db count fired hf hl
    have hcx : ¬ c = x := fun hc => hl (hc ▸ List.mem_cons_self c rest)
    have hrest : x ∉ rest := fun hr => hl (List.mem_cons_of_mem c hr)
    simp only [fireMonitorAlertsLoop]
    cases halo : alookup c coinData with
    | none => exact ih db count fired hf hrest
    | some info =>
      by_cases hchk :
        (checkAndUpdateCoinCooldown userId info.1 filterSig cd now db.cooldowns).1 = true
      · simp only [hchk, if_true]
        apply ih _ _ _ _ hrest
        have hxc : ¬ x = c := fun hx => hcx hx.symm
        simp [hf, hxc]
      · simp only [hchk, if_false]
        exact ih _ _ _ hf hrest

theorem mem_jsSetAux (x : String) (l : List String) :
    ∀ acc : List String, x ∈ jsSetAux acc l → x ∈ acc ∨ x ∈ l := by
  induction l with
  | nil => intro acc h; exact Or.inl h
  | cons c rest ih =>
    intro acc h
    simp only [jsSetAux] at h
    by_cases hc : c ∈ acc
    · rw [if_pos hc] at h
      rcases ih acc h with h1 | h2
      · exact Or.inl h1
      · exact Or.inr (List.mem_cons_of_mem c h2)
    · rw [if_neg hc] at h
      rcases ih (acc ++ [c]) h with h1 | h2
      · rcases List.mem_append.mp h1 with h3 | h3
        · exact Or.inl h3
        · exact Or.inr (by simpa using Or.inl (List.mem_singleton.mp h3))
      · exact Or.inr (List.mem_cons_of_mem c h2)

theorem mem_of_mem_jsSetOfList (x : String) (l : List String) (h : x ∈ jsSetOfList l) :
    x ∈ l := by
  rcases mem_jsSetAux x l [] h with h1 | h1
  · exact absurd h1 (List.not_mem_nil x)
  · exact h1

/-- Unfolding of evaluateMonitorAlerts when the settings record for the
(user, signature) pair is already stored. -/
theorem evaluateMonitorAlerts_of_settings (userId : String) (ids : List String)
    (fv : FilterSignatureInput) (coinData : List (String × String × String)) (now : Nat)
    (db : AlertDb) (s : MonitorAlertSettings)
    (hset : alookup (userId, generateFilterSignature fv) db.settings = some s) :
    evaluateMonitorAlerts userId ids fv coinData now db =
      (if s.enabled then
        fireMonitorAlertsLoop userId (generateFilterSignature fv) s.cooldown_seconds fv coinData
          now ((jsSetOfList ids).filter (fun id =>
            !(((getMonitorAlertState userId (generateFilterSignature fv) db).getD []).contains
              id)))
          (upsertMonitorAlertState userId (generateFilterSignature fv) ids db) 0 []
      else ⟨0, [], db⟩) := by
  cases hen : s.enabled with
  | false =>
    simp [evaluateMonitorAlerts, getOrCreateMonitorAlertSettings, hset, hen]
  | true =>
    simp only [evaluateMonitorAlerts, getOrCreateMonitorAlertSettings, hset, hen,
      Bool.not_true, if_true, if_false, Bool.false_eq_true]

/-- Running evaluateMonitorAlerts on a store is the same as running it on the
store returned by getOrCreateMonitorAlertSettings for its signature. -/
theorem evaluateMonitorAlerts_getOrCreate (userId : String) (ids : List String)
    (fv : FilterSignatureInput) (coinData : List (String × String × String)) (now : Nat)
    (db : AlertDb) :
    evaluateMonitorAlerts userId ids fv coinData now db =
      evaluateMonitorAlerts userId ids fv coinData now
        (getOrCreateMonitorAlertSettings userId (generateFilterSignature fv) now db).2 := by
  cases hset : alookup (userId, generateFilterSignature fv) db.settings with
  | some s =>
    simp [getOrCreateMonitorAlertSettings, hset]
  | none =>
    have hlook := getOrCreate_lookup userId (generateFilterSignature fv) now db
    conv_rhs => rw [evaluateMonitorAlerts]
    rw [evaluateMonitorAlerts]
    simp only [getOrCreateMonitorAlertSettings, hset] at hlook ⊢
    rw [hlook]

/-! ## Claim C4: immediate second evaluation is a no-op -/

/-- Claim C4: the new-coin diff is taken against the pre-update snapshot and
the snapshot is then overwritten with the current member list, so a second
evaluateMonitorAlerts call with the same user, filters and member list fires
zero alerts, returns 0 and appends no event, whatever the starting store. -/
theorem c4_second_pass_noop (userId : String) (ids : List String) (fv : FilterSignatureInput)
    (coinData : List (String × String × String)) (now1 now2 : Nat) (db : AlertDb) :
    (evaluateMonitorAlerts userId ids fv coinData now2
      (evaluateMonitorAlerts userId ids fv coinData now1 db).db).count = 0 ∧
    (evaluateMonitorAlerts userId ids fv coinData now2
      (evaluateMonitorAlerts userId ids fv coinData now1 db).db).firedCoinIds = [] ∧
    (evaluateMonitorAlerts userId ids fv coinData now2
      (evaluateMonitorAlerts userId ids fv coinData now1 db).db).db.events =
      (evaluateMonitorAlerts userId ids fv coinData now1 db).db.events := by
  rw [evaluateMonitorAlerts_getOrCreate userId ids fv coinData now1 db]
  have hset1 := getOrCreate_lookup userId (generateFilterSignature fv) now1 db
  have heval1 := evaluateMonitorAlerts_of_settings userId ids fv coinData now1
    (getOrCreateMonitorAlertSettings userId (generateFilterSignature fv) now1 db).2
    (getOrCreateMonitorAlertSettings userId (generateFilterSignature fv) now1 db).1 hset1
  cases hen : (getOrCreateMonitorAlertSettings userId (generateFilterSignature fv)
      now1 db).1.enabled with
  | false =>
    rw [heval1, if_neg (by simp [hen])]
    have heval2 := evaluateMonitorAlerts_of_settings userId ids fv coinData now2
      (getOrCreateMonitorAlertSettings userId (generateFilterSignature fv) now1 db).2
      (getOrCreateMonitorAlertSettings userId (generateFilterSignature fv) now1 db).1 hset1
    rw [heval2, if_neg (by simp [hen])]
    exact ⟨rfl, rfl, rfl⟩
  | true =>
    rw [heval1, if_pos hen]
    have hframe := fireLoop_frame userId (generateFilterSignature fv)
      (getOrCreateMonitorAlertSettings userId (generateFilterSignature fv) now1 db).1.cooldown_seconds
      fv coinData now1
      ((jsSetOfList ids).filter (fun id =>
        !(((getMonitorAlertState userId (generateFilterSignature fv)
          (getOrCreateMonitorAlertSettings userId (generateFilterSignature fv) now1 db).2).getD
          []).contains id)))
      (upsertMonitorAlertState userId (generateFilterSignature fv) ids
        (getOrCreateMonitorAlertSettings userId (generateFilterSignature fv) now1 db).2) 0 []
    have hsetr : alookup (userId, generateFilterSignature fv)
        (fireMonitorAlertsLoop userId (generateFilterSignature fv)
          (getOrCreateMonitorAlertSettings userId (generateFilterSignature fv)
            now1 db).1.cooldown_seconds fv coinData now1
          ((jsSetOfList ids).filter (fun id =>
            !(((getMonitorAlertState userId (generateFilterSignature fv)
              (getOrCreateMonitorAlertSettings userId (generateFilterSignature fv)
                now1 db).2).getD []).contains id)))
          (upsertMonitorAlertState userId (generateFilterSignature fv) ids
            (getOrCreateMonitorAlertSettings userId (generateFilterSignature fv) now1 db).2)
          0 []).db.settings =
        some (getOrCreateMonitorAlertSettings userId (generateFilterSignature fv) now1 db).1 := by
      rw [hframe.1]
      exact hset1
    have hstater : getMonitorAlertState userId (generateFilterSignature fv)
        (fireMonitorAlertsLoop userId (generateFilterSignature fv)
          (getOrCreateMonitorAlertSettings userId (generateFilterSignature fv)
            now1 db).1.cooldown_seconds fv coinData now1
          ((jsSetOfList ids).filter (fun id =>
            !(((getMonitorAlertState userId (generateFilterSignature fv)
              (getOrCreateMonitorAlertSettings userId (generateFilterSignature fv)
                now1 db).2).getD []).contains id)))
          (upsertMonitorAlertState userId (generateFilterSignature fv) ids
            (getOrCreateMonitorAlertSettings userId (generateFilterSignature fv) now1 db).2)
          0 []).db = some ids := by
      rw [getMonitorAlertState, hframe.2]
      exact alookup_aset_self _ _ _
    have heval2 := evaluateMonitorAlerts_of_settings userId ids fv coinData now2 _ _ hsetr
    rw [heval2, if_pos hen]
    have hnil : (jsSetOfList ids).filter (fun id =>
        !(((getMonitorAlertState userId (generateFilterSignature fv)
          (fireMonitorAlertsLoop userId (generateFilterSignature fv)
            (getOrCreateMonitorAlertSettings userId (generateFilterSignature fv)
              now1 db).1.cooldown_seconds fv coinData now1
            ((jsSetOfList ids).filter (fun id =>
              !(((getMonitorAlertState userId (generateFilterSignature fv)
                (getOrCreateMonitorAlertSettings userId (generateFilterSignature fv)
                  now1 db).2).getD []).contains id)))
            (upsertMonitorAlertState userId (generateFilterSignature fv) ids
              (getOrCreateMonitorAlertSettings userId (generateFilterSignature fv) now1 db).2)
            0 []).db).getD []).contains id)) = [] := by
      rw [hstater]
      apply List.filter_eq_nil_iff.mpr
      intro a ha
      have ham : a ∈ ids := mem_of_mem_jsSetOfList a ids ha
      simpa [List.contains] using ham
    rw [hnil]
    exact ⟨rfl, rfl, rfl⟩

/-! ## Claim C5: first pass under a fresh signature -/

/-- Claim C5 is contradicted by the code while being asserted by the code's
own test (testNewCoinDetection expects 0 alerts on the first pass): on the
very first evaluation for a fresh signature the stored snapshot is empty, so
every current member is treated as new and, with all cooldown gates fresh, one
alert fires per member. At the test fixture input (three coins, empty store,
wall-clock time) the evaluator returns 3, not 0. -/
theorem c5_first_pass_fires_per_member :
    (evaluateMonitorAlerts "test_user_1" ["bitcoin", "ethereum", "solana"] testFilters
      testCoinData 1700000000000 emptyAlertDb).count = 3 ∧
    (evaluateMonitorAlerts "test_user_1" ["bitcoin", "ethereum", "solana"] testFilters
      testCoinData 1700000000000 emptyAlertDb).firedCoinIds =
      ["bitcoin", "ethereum", "solana"] := by
  decide

/-! ## Claim C6: disabled settings -/

/-- Claim C6 as stated is false: with the monitor settings disabled and a
stored snapshot of [], evaluating with current member list ["bitcoin"] returns
0 but leaves the stored snapshot at [] instead of replacing it with the
current member set as the claim requires. -/
theorem c6_counterexample :
    (evaluateMonitorAlerts "u" ["bitcoin"] testFilters testCoinData 1700000000000
      disabledDb).count = 0 ∧
    getMonitorAlertState "u" (generateFilterSignature testFilters)
      (evaluateMonitorAlerts "u" ["bitcoin"] testFilters testCoinData 1700000000000
        disabledDb).db = some [] ∧
    ¬ getMonitorAlertState "u" (generateFilterSignature testFilters)
      (evaluateMonitorAlerts "u" ["bitcoin"] testFilters testCoinData 1700000000000
        disabledDb).db = some ["bitcoin"] := by
  decide

/-- Claim C6 (amended): when the stored settings for the (user, signature)
pair are disabled, evaluateMonitorAlerts fires zero alerts, returns 0, and
returns before touching the store at all — the stored snapshot is left
unchanged, not kept current. -/
theorem c6_disabled_amended (userId : String) (ids : List String) (fv : FilterSignatureInput)
    (coinData : List (String × String × String)) (now : Nat) (db : AlertDb)
    (s : MonitorAlertSettings)
    (hset : alookup (userId, generateFilterSignature fv) db.settings = some s)
    (hdis : s.enabled = false) :
    evaluateMonitorAlerts userId ids fv coinData now db = ⟨0, [], db⟩ := by
  rw [evaluateMonitorAlerts_of_settings userId ids fv coinData now db s hset,
    if_neg (by simp [hdis])]

/-- Witness for c6_disabled_amended at the disabled fixture store. -/
theorem c6_disabled_amended_witness :
    alookup ("u", generateFilterSignature testFilters) disabledDb.settings =
      some disabledSettings ∧
    disabledSettings.enabled = false ∧
    evaluateMonitorAlerts "u" ["bitcoin"] testFilters testCoinData 1700000000000 disabledDb =
      ⟨0, [], disabledDb⟩ :=
  ⟨by decide, by decide,
    c6_disabled_amended "u" ["bitcoin"] testFilters testCoinData 1700000000000 disabledDb
      disabledSettings (by decide) (by decide)⟩

/-! ## Claim C10: entrants with no lookup entry are silently absorbed -/

/-- One evaluation step keeps the invariant: once the stored snapshot contains
an id that is also in the current member list, the evaluation fires no alert
for that id and the post-state snapshot still contains it. -/
theorem monitor_invariant_step (userId : String) (ids : List String)
    (fv : FilterSignatureInput) (coinData : List (String × String × String)) (now : Nat)
    (db : AlertDb) (x : String) (l0 : List String)
    (hprev : getMonitorAlertState userId (generateFilterSignature fv) db = some l0)
    (hx0 : x ∈ l0) (hxc : x ∈ ids) :
    x ∉ (evaluateMonitorAlerts userId ids fv coinData now db).firedCoinIds ∧
    ∃ l, getMonitorAlertState userId (generateFilterSignature fv)
        (evaluateMonitorAlerts userId ids fv coinData now db).db = some l ∧ x ∈ l := by
  rw [evaluateMonitorAlerts_getOrCreate userId ids fv coinData now db]
  have hset1 := getOrCreate_lookup userId (generateFilterSignature fv) now db
  have hprev1 : getMonitorAlertState userId (generateFilterSignature fv)
      (getOrCreateMonitorAlertSettings userId (generateFilterSignature fv) now db).2 =
      some l0 := by
    rw [getMonitorAlertState,
      (getOrCreate_frame userId (generateFilterSignature fv) now db).1]
    exact hprev
  have heval := evaluateMonitorAlerts_of_settings userId ids fv coinData now
    (getOrCreateMonitorAlertSettings userId (generateFilterSignature fv) now db).2
    (getOrCreateMonitorAlertSettings userId (generateFilterSignature fv) now db).1 hset1
  cases hen : (getOrCreateMonitorAlertSettings userId (generateFilterSignature fv)
      now db).1.enabled with
  | false =>
    rw [heval, if_neg (by simp [hen])]
    exact ⟨List.not_mem_nil x, ⟨l0, hprev1, hx0⟩⟩
  | true =>
    rw [heval, if_pos hen]
    have hframe := fireLoop_frame userId (generateFilterSignature fv)
      (getOrCreateMonitorAlertSettings userId (generateFilterSignature fv)
        now db).1.cooldown_seconds fv coinData now
      ((jsSetOfList ids).filter (fun id =>
        !(((getMonitorAlertState userId (generateFilterSignature fv)
          (getOrCreateMonitorAlertSettings userId (generateFilterSignature fv) now db).2).getD
          []).contains id)))
      (upsertMonitorAlertState userId (generateFilterSignature fv) ids
        (getOrCreateMonitorAlertSettings userId (generateFilterSignature fv) now db).2) 0 []
    constructor
    · apply fireLoop_not_fired_of_not_mem
      · exact List.not_mem_nil x
      · intro hxn
        have hcond := (List.mem_filter.mp hxn).2
        rw [hprev1] at hcond
        simp [List.contains] at hcond
        exact hcond hx0
    · refine ⟨ids, ?_, hxc⟩
      rw [getMonitorAlertState, hframe.2]
      exact alookup_aset_self _ _ _

/-- First evaluation for an id absent from the lookup map: no alert is fired
for it, and, the settings being enabled, the id is written into the snapshot. -/
theorem monitor_first_eval_unknown (userId : String) (ids : List String)
    (fv : FilterSignatureInput) (coinData : List (String × String × String)) (now : Nat)
    (db : AlertDb) (s : MonitorAlertSettings) (x : String)
    (hset : alookup (userId, generateFilterSignature fv) db.settings = some s)
    (hen : s.enabled = true) (hx : x ∈ ids) (hlk : alookup x coinData = none) :
    x ∉ (evaluateMonitorAlerts userId ids fv coinData now db).firedCoinIds ∧
    ∃ l, getMonitorAlertState userId (generateFilterSignature fv)
        (evaluateMonitorAlerts userId ids fv coinData now db).db = some l ∧ x ∈ l := by
  have heval := evaluateMonitorAlerts_of_settings userId ids fv coinData now db s hset
  rw [heval, if_pos hen]
  have hframe := fireLoop_frame userId (generateFilterSignature fv) s.cooldown_seconds fv
    coinData now
    ((jsSetOfList ids).filter (fun id =>
      !(((getMonitorAlertState userId (generateFilterSignature fv) db).getD []).contains id)))
    (upsertMonitorAlertState userId (generateFilterSignature fv) ids db) 0 []
  constructor
  · exact fireLoop_not_fired_of_lookup_none userId (generateFilterSignature fv)
      s.cooldown_seconds fv coinData now x hlk _ _ 0 [] (List.not_mem_nil x)
  · refine ⟨ids, ?_, hx⟩
    rw [getMonitorAlertState, hframe.2]
    exact alookup_aset_self _ _ _

/-- Every evaluation of a run keeps the snapshot invariant and never fires for
the tracked id, as long as each evaluation's member list still contains it. -/
theorem runMonitorEvals_never_fires (userId : String) (fv : FilterSignatureInput)
    (x : String) (evals : List EvalInput) :
    ∀ db : AlertDb,
      (∃ l, getMonitorAlertState userId (generateFilterSignature fv) db = some l ∧ x ∈ l) →
      (∀ e ∈ evals, x ∈ e.coinIds) →
      (∀ fs ∈ (runMonitorEvals userId fv evals db).1, x ∉ fs) ∧
      (∃ l, getMonitorAlertState userId (generateFilterSignature fv)
          (runMonitorEvals userId fv evals db).2 = some l ∧ x ∈ l) := by
  induction evals with
  | nil =>
    intro db hinv _
    exact ⟨by simp [runMonitorEvals], hinv⟩
  | cons e rest ih =>
    intro db hinv hall
    obtain ⟨l0, hl0, hx0⟩ := hinv
    have hstep := monitor_invariant_step userId e.coinIds fv e.coinData e.now db x l0 hl0 hx0
      (hall e (List.mem_cons_self e rest))
    have hrest := ih (evaluateMonitorAlerts userId e.coinIds fv e.coinData e.now db).db
      hstep.2 (fun e2 he2 => hall e2 (List.mem_cons_of_mem e he2))
    constructor
    · intro fs hfs
      simp only [runMonitorEvals] at hfs
      rcases List.mem_cons.mp hfs with hfs1 | hfs2
      · rw [hfs1]
        exact hstep.1
      · exact hrest.1 fs hfs2
    · simpa [runMonitorEvals] using hrest.2

/-- Claim C10: a member id that first enters the filtered set while absent
from member_lookup fires no alert, is still written into the stored snapshot,
and — as long as every later evaluation under the same user and filter still
lists it — no later evaluation can ever fire an ENTRANT alert for it, even
after lookup data becomes available. -/
theorem c10_unknown_entrant_never_alerts (userId : String) (fv : FilterSignatureInput)
    (x : String) (ids0 : List String) (coinData0 : List (String × String × String))
    (now0 : Nat) (db : AlertDb) (s : MonitorAlertSettings) (evals : List EvalInput)
    (hset : alookup (userId, generateFilterSignature fv) db.settings = some s)
    (hen : s.enabled = true) (hx : x ∈ ids0) (hlk : alookup x coinData0 = none)
    (hlater : ∀ e ∈ evals, x ∈ e.coinIds) :
    x ∉ (evaluateMonitorAlerts userId ids0 fv coinData0 now0 db).firedCoinIds ∧
    (∃ l, getMonitorAlertState userId (generateFilterSignature fv)
        (evaluateMonitorAlerts userId ids0 fv coinData0 now0 db).db = some l ∧ x ∈ l) ∧
    ∀ fs ∈ (runMonitorEvals userId fv evals
        (evaluateMonitorAlerts userId ids0 fv coinData0 now0 db).db).1, x ∉ fs := by
  have h0 := monitor_first_eval_unknown userId ids0 fv coinData0 now0 db s x hset hen hx hlk
  exact ⟨h0.1, h0.2,
    (runMonitorEvals_never_fires userId fv x evals _ h0.2 hlater).1⟩

/-- Witness for c10_unknown_entrant_never_alerts: id "cardano" enters with an
empty lookup map at the first evaluation, and a later evaluation supplies the
lookup entry; no alert ever fires for it. -/
theorem c10_unknown_entrant_never_alerts_witness :
    alookup ("u", generateFilterSignature testFilters) enabledDb.settings =
      some enabledSettings ∧
    enabledSettings.enabled = true ∧
    "cardano" ∈ ["cardano"] ∧
    alookup "cardano" ([] : List (String × String × String)) = none ∧
    "cardano" ∉ (evaluateMonitorAlerts "u" ["cardano"] testFilters [] 1700000000000
      enabledDb).firedCoinIds ∧
    ∀ fs ∈ (runMonitorEvals "u" testFilters
        [⟨["cardano"], [("cardano", "ADA", "Cardano")], 1700000100000⟩]
        (evaluateMonitorAlerts "u" ["cardano"] testFilters [] 1700000000000
          enabledDb).db).1, "cardano" ∉ fs := by
  have h := c10_unknown_entrant_never_alerts "u" testFilters "cardano" ["cardano"] []
    1700000000000 enabledDb enabledSettings
    [⟨["cardano"], [("cardano", "ADA", "Cardano")], 1700000100000⟩]
    (by decide) (by decide) (by decide) (by decide) (by decide)
  exact ⟨by decide, by decide, by decide, by decide, h.1, h.2.2⟩

/-! ## Claim C7: rule creation validation -/

/-- Claim C7 as stated is false: JavaScript truthiness makes `!timeframes`
false for an empty array, so a body with symbol "btc", timeframes [] and
thresholds [2] is not rejected — a rule with an empty timeframes list is
created and persisted, where the claim requires a 400 and no record. -/
theorem c7_counterexample :
    (postAlertRules "u" ⟨some "btc", some [], some [2], none, none⟩ 5 "ar_1" []).1 ≠
      RulePostResult.badRequest ∧
    (postAlertRules "u" ⟨some "btc", some [], some [2], none, none⟩ 5 "ar_1" []).2 ≠ [] := by
  decide

/-- Claim C7 (amended): the POST handler fails with 400 and persists nothing
iff the symbol is missing or empty, the timeframes field is missing, or the
thresholds field is missing — an empty (but present) timeframes or thresholds
array is accepted. In every other case it creates and persists a rule with
the symbol uppercased, enabled true, and defaults baseline_n = 20 and
cooldown_seconds = 300 applied when the field is missing or 0. -/
theorem c7_create_rule_amended (userId : String) (body : RulePostBody) (now : Nat)
    (ruleId : String) (store : List AlertRule) :
    ((postAlertRules userId body now ruleId store).1 = RulePostResult.badRequest ↔
      (body.symbol = none ∨ body.symbol = some "" ∨ body.timeframes = none ∨
        body.thresholds = none)) ∧
    ((postAlertRules userId body now ruleId store).1 = RulePostResult.badRequest →
      (postAlertRules userId body now ruleId store).2 = store) ∧
    (∀ sym tfs ths, body.symbol = some sym → sym ≠ "" → body.timeframes = some tfs →
      body.thresholds = some ths →
      (postAlertRules userId body now ruleId store).1 = RulePostResult.created
        { id := ruleId
          user_id := userId
          symbol := jsToUpperCase sym
          timeframes := tfs
          thresholds := ths
          baseline_n := jsOrDefaultQ body.baseline_n 20
          cooldown_seconds := jsOrDefaultNat body.cooldown_seconds 300
          enabled := true
          created_at := now
          updated_at := now } ∧
      (postAlertRules userId body now ruleId store).2 = store ++
        [{ id := ruleId
           user_id := userId
           symbol := jsToUpperCase sym
           timeframes := tfs
           thresholds := ths
           baseline_n := jsOrDefaultQ body.baseline_n 20
           cooldown_seconds := jsOrDefaultNat body.cooldown_seconds 300
           enabled := true
           created_at := now
           updated_at := now }]) := by
  refine ⟨?_, ?_, ?_⟩
  · obtain ⟨sym, tfs, ths, bn, cd⟩ := body
    cases sym with
    | none => simp [postAlertRules, jsFalsyStr]
    | some s =>
      by_cases hs : s = ""
      · subst hs
        simp [postAlertRules, jsFalsyStr]
      · cases tfs with
        | none => simp [postAlertRules, jsFalsyStr, hs]
        | some tl =>
          cases ths with
          | none => simp [postAlertRules, jsFalsyStr, hs]
          | some hl => simp [postAlertRules, jsFalsyStr, hs]
  · intro hbad
    obtain ⟨sym, tfs, ths, bn, cd⟩ := body
    cases sym with
    | none => simp [postAlertRules, jsFalsyStr]
    | some s =>
      by_cases hs : s = ""
      · subst hs
        simp [postAlertRules, jsFalsyStr]
      · cases tfs with
        | none => simp [postAlertRules, jsFalsyStr, hs]
        | some tl =>
          cases ths with
          | none => simp [postAlertRules, jsFalsyStr, hs]
          | some hl =>
            exfalso
            simp [postAlertRules, jsFalsyStr, hs] at hbad
  · intro sym2 tfs2 ths2 hsym hne htf hth
    constructor
    · simp [postAlertRules, jsFalsyStr, hsym, htf, hth, hne]
    · simp [postAlertRules, jsFalsyStr, hsym, htf, hth, hne]

/-- Witness for c7_create_rule_amended: a valid body with symbol "btc",
timeframes ["1h"], thresholds [2, 3] and cooldown 0 creates and persists the
rule with the defaults applied (cooldown 0 falls back to 300). -/
theorem c7_create_rule_amended_witness :
    (postAlertRules "u" ⟨some "btc", some ["1h"], some [2, 3], none, some 0⟩ 7 "ar_1" []).1 =
      RulePostResult.created
        { id := "ar_1"
          user_id := "u"
          symbol := jsToUpperCase "btc"
          timeframes := ["1h"]
          thresholds := [2, 3]
          baseline_n := jsOrDefaultQ none 20
          cooldown_seconds := jsOrDefaultNat (some 0) 300
          enabled := true
          created_at := 7
          updated_at := 7 } ∧
    jsToUpperCase "btc" = "BTC" ∧ jsOrDefaultQ none 20 = 20 ∧
    jsOrDefaultNat (some 0) 300 = 300 := by
  have h := c7_create_rule_amended "u" ⟨some "btc", some ["1h"], some [2, 3], none, some 0⟩
    7 "ar_1" []
  exact ⟨(h.2.2 "btc" ["1h"] [2, 3] rfl (by decide) rfl rfl).1, by decide, by decide, by decide⟩

/-! ## Claim C8: event listing is user-scoped, newest-first, capped at 500 -/

/-- Claim C8: for every stored event list, user and requested limit, the
events GET route returns only events of that user, in descending triggered_at
order, and never more than 500 of them. -/
theorem c8_events_capped_sorted (events : List AlertEvent) (userId : String) (limit : Nat) :
    (routeAlertEventsGET events userId limit).length ≤ 500 ∧
    (∀ e ∈ routeAlertEventsGET events userId limit, e.user_id = userId) ∧
    List.Sorted (fun a b => b.triggered_at ≤ a.triggered_at)
      (routeAlertEventsGET events userId limit) := by
  refine ⟨?_, ?_, ?_⟩
  · calc (routeAlertEventsGET events userId limit).length
        ≤ min limit 500 := List.length_take_le _ _
      _ ≤ 500 := Nat.min_le_right _ _
  · intro e he
    have he2 : e ∈ sortByTriggeredDesc (events.filter (fun e => e.user_id == userId)) :=
      List.take_subset _ _ he
    have he3 : e ∈ events.filter (fun e => e.user_id == userId) :=
      (List.perm_insertionSort newerFirst _).mem_iff.mp he2
    have hu := (List.mem_filter.mp he3).2
    simpa using hu
  · have hsorted : List.Sorted newerFirst
        (sortByTriggeredDesc (events.filter (fun e => e.user_id == userId))) :=
      List.sorted_insertionSort newerFirst _
    exact List.Pairwise.sublist (List.take_sublist _ _) hsorted

/-- Witness for c8_events_capped_sorted at the Scenario D limit of 99999. -/
theorem c8_events_capped_sorted_witness :
    (routeAlertEventsGET [] "u" 99999).length ≤ 500 :=
  (c8_events_capped_sorted [] "u" 99999).1

/-! ## Claim C9: zero-valued optional fields do not round-trip -/

/-- Claim C9: persisting an event through the repository maps a zero-valued
threshold, ratio, current volume or baseline volume (and an empty-string rule
id) to null in the stored and returned record, while every non-zero value is
preserved; the stored record is what is appended to the log. -/
theorem c9_zero_fields_become_null (e : AlertEvent) (store : List AlertEvent) :
    ((e.threshold = some 0 → (createAlertEvent e store).1.threshold = none) ∧
     (e.ratio = some 0 → (createAlertEvent e store).1.ratio = none) ∧
     (e.current_vol = some 0 → (createAlertEvent e store).1.current_vol = none) ∧
     (e.baseline_vol = some 0 → (createAlertEvent e store).1.baseline_vol = none) ∧
     (e.rule_id = some "" → (createAlertEvent e store).1.rule_id = none)) ∧
    ((∀ x : ℚ, x ≠ 0 → e.threshold = some x →
        (createAlertEvent e store).1.threshold = some x) ∧
     (∀ x : ℚ, x ≠ 0 → e.ratio = some x → (createAlertEvent e store).1.ratio = some x) ∧
     (∀ x : ℚ, x ≠ 0 → e.current_vol = some x →
        (createAlertEvent e store).1.current_vol = some x) ∧
     (∀ x : ℚ, x ≠ 0 → e.baseline_vol = some x →
        (createAlertEvent e store).1.baseline_vol = some x)) ∧
    (createAlertEvent e store).2 = store ++ [(createAlertEvent e store).1] := by
  refine ⟨⟨?_, ?_, ?_, ?_, ?_⟩, ⟨?_, ?_, ?_, ?_⟩, rfl⟩
  · intro h
    simp [createAlertEvent, jsOrNullQ, h]
  · intro h
    simp [createAlertEvent, jsOrNullQ, h]
  · intro h
    simp [createAlertEvent, jsOrNullQ, h]
  · intro h
    simp [createAlertEvent, jsOrNullQ, h]
  · intro h
    simp [createAlertEvent, jsOrNullStr, h]
  · intro x hx h
    simp [createAlertEvent, jsOrNullQ, h, hx]
  · intro x hx h
    simp [createAlertEvent, jsOrNullQ, h, hx]
  · intro x hx h
    simp [createAlertEvent, jsOrNullQ, h, hx]
  · intro x hx h
    simp [createAlertEvent, jsOrNullQ, h, hx]

/-- Witness for c9_zero_fields_become_null at a concrete event with zero
threshold and current volume, empty rule id, and non-zero ratio and baseline
volume. -/
theorem c9_zero_fields_become_null_witness :
    (createAlertEvent zeroFieldEvent []).1.threshold = none ∧
    (createAlertEvent zeroFieldEvent []).1.current_vol = none ∧
    (createAlertEvent zeroFieldEvent []).1.rule_id = none ∧
    (createAlertEvent zeroFieldEvent []).1.ratio = some 2 ∧
    (createAlertEvent zeroFieldEvent []).1.baseline_vol = some 5 := by
  have h := c9_zero_fields_become_null zeroFieldEvent []
  exact ⟨h.1.1 rfl, h.1.2.2.1 rfl, h.1.2.2.2.2 rfl,
    h.2.1.2.1 2 (by norm_num) rfl, h.2.1.2.2.2 5 (by norm_num) rfl⟩
